import Mathlib

/-!
Shallow embedding of the CivicSense priority/SLA engine.

The definitions below are translated from the repository's stored
procedures and edge-function / UI code:
* `calculate_priority_score`, `set_sla_due_date`, `check_and_update_rate_limit`,
  `check_duplicate_report` from the enhanced-schema SQL migration;
* the `check-sla-escalations` sweep from the edge function embedded in
  `supabase/migrations/20260131074912_create_civic_reports_schema.sql`;
* `handleUpdateReport` / `handleReopenReport` from `src/components/ReportsList.tsx`;
* the report-insert path of `handleSubmit` from `src/components/ReportForm.tsx`.

Timestamps are modelled as rational numbers of hours since an arbitrary
epoch; SQL `numeric` values are rationals; wall-clock hours are naturals
0..23; days are hour-index divided by 24.
-/

namespace CivicSense

/-! ## Priority scorer (`calculate_priority_score`) -/

/-- The default `priority_rules` rows inserted by the migration:
weight of an active `issue_type` rule, `none` when no rule exists. -/
def defaultPriorityRules : String → Option ℚ := fun t =>
  if t = "pothole" then some (7/10)
  else if t = "streetlight" then some (8/10)
  else if t = "drainage" then some (6/10)
  else if t = "garbage" then some (4/10)
  else if t = "road_damage" then some (3/4)
  else if t = "other" then some (3/10)
  else none

/-- Time-of-day multiplier of `calculate_priority_score`:
`1.3` when the issue is a streetlight and `EXTRACT(HOUR FROM now())`
is `NOT BETWEEN 6 AND 18` (SQL `BETWEEN` is inclusive at both ends). -/
def timeMultiplier (p_issue_type : String) (hour : ℕ) : ℚ :=
  if p_issue_type = "streetlight" ∧ ¬ (6 ≤ hour ∧ hour ≤ 18) then 13/10 else 1

/-- Threshold mapping from final score to priority tier
(the `CASE` expression of `calculate_priority_score`). -/
def scoreTier (s : ℚ) : String :=
  if s ≥ 3/4 then "critical"
  else if s ≥ 11/20 then "high"
  else if s ≥ 7/20 then "medium"
  else "low"

/-- The SQL function `calculate_priority_score(p_issue_type, p_lat, p_lng, p_ai_confidence)`.
`rules` abstracts the `priority_rules` lookup (`some w` when an active
`issue_type` row exists); `hour` is the wall-clock hour of `now()`.
The lat/lng arguments of the SQL function are unused by its body and
are omitted. Returns `(score, priority)`. -/
def calculate_priority_score (rules : String → Option ℚ) (hour : ℕ)
    (p_issue_type : String) (p_ai_confidence : ℚ) : ℚ × String :=
  let v_base_score : ℚ := (rules p_issue_type).getD (1/2)
  let v_time_multiplier : ℚ := timeMultiplier p_issue_type hour
  let v_final_score : ℚ :=
    min (v_base_score * v_time_multiplier * (1/2 + p_ai_confidence * (1/2))) 1
  (v_final_score, scoreTier v_final_score)

/-! ## SLA calculator (`sla_config` and `set_sla_due_date`) -/

/-- One row of `sla_config`. -/
structure SLAConfigRow where
  response_time_hours : ℤ
  resolution_time_hours : ℤ
  escalation_level_1_hours : ℤ
  escalation_level_2_hours : ℤ
  deriving Repr, DecidableEq

/-- The default `sla_config` rows inserted by the migration. -/
def defaultSlaConfig : String → Option SLAConfigRow := fun p =>
  if p = "critical" then some ⟨2, 24, 4, 12⟩
  else if p = "high" then some ⟨8, 72, 24, 48⟩
  else if p = "medium" then some ⟨24, 168, 72, 120⟩
  else if p = "low" then some ⟨72, 336, 168, 240⟩
  else none

/-- The `NEW` row as seen by the `BEFORE INSERT` trigger on `civic_reports`
(only the fields `set_sla_due_date` reads or writes). -/
structure NewReport where
  issue_type : String
  ai_confidence : ℚ
  priority : String
  priority_score : Option ℚ
  created_at : ℚ
  sla_due_at : Option ℚ
  deriving Repr, DecidableEq

/-- The `set_sla_due_date()` trigger body: recompute priority when
`priority_score` is null, then set `sla_due_at := created_at +
resolution_time_hours` when an `sla_config` row exists for the priority;
otherwise leave `sla_due_at` untouched. Always returns a row — a missing
configuration never raises. -/
def set_sla_due_date (rules : String → Option ℚ)
    (slaConfig : String → Option SLAConfigRow) (hour : ℕ)
    (new : NewReport) : NewReport :=
  let new :=
    match new.priority_score with
    | some _ => new
    | none =>
        let r := calculate_priority_score rules hour new.issue_type new.ai_confidence
        { new with priority := r.2, priority_score := some r.1 }
  match slaConfig new.priority with
  | some cfg =>
      { new with sla_due_at := some (new.created_at + (cfg.resolution_time_hours : ℚ)) }
  | none => new

/-! ## Escalation sweep (`check-sla-escalations` edge function) -/

/-- The columns the escalation sweep selects from `civic_reports`. -/
structure SweepReport where
  id : ℕ
  priority : String
  escalation_level : ℤ
  created_at : ℚ
  sla_due_at : Option ℚ
  status : String
  deriving Repr, DecidableEq

/-- One row of the `escalations` log written by the sweep. -/
structure Escalation where
  report_id : ℕ
  from_level : ℤ
  to_level : ℤ
  deriving Repr, DecidableEq

/-- The sweep's candidate filter: the edge function fetches reports with
`status in ('pending','in_progress','reopened')` and `sla_due_at` not null. -/
def sweepSelects (r : SweepReport) : Bool :=
  (r.status = "pending" ∨ r.status = "in_progress" ∨ r.status = "reopened") ∧
    r.sla_due_at ≠ none

/-- The sweep's `newLevel` computation: 2 when `hoursElapsed` exceeds the
level-2 threshold and the current level is below 2; else 1 when it exceeds
the level-1 threshold and the current level is below 1; else unchanged. -/
def desiredLevel (hoursElapsed : ℚ) (cfg : SLAConfigRow) (level : ℤ) : ℤ :=
  if hoursElapsed > (cfg.escalation_level_2_hours : ℚ) ∧ level < 2 then 2
  else if hoursElapsed > (cfg.escalation_level_1_hours : ℚ) ∧ level < 1 then 1
  else level

/-- Processing of a single fetched report inside the sweep loop: skip when
the priority has no `sla_config` row; otherwise bump `escalation_level` to
the desired level and, when it strictly increased, log an escalation. -/
def sweepOne (now : ℚ) (slaMap : String → Option SLAConfigRow)
    (r : SweepReport) : SweepReport × Option Escalation :=
  if sweepSelects r then
    match slaMap r.priority with
    | none => (r, none)
    | some cfg =>
        let hoursElapsed : ℚ := now - r.created_at
        let newLevel := desiredLevel hoursElapsed cfg r.escalation_level
        if newLevel > r.escalation_level then
          ({ r with escalation_level := newLevel },
           some ⟨r.id, r.escalation_level, newLevel⟩)
        else (r, none)
  else (r, none)

/-- One run of the `check-sla-escalations` sweep over the report table:
returns the updated reports and the escalation log entries appended. -/
def runEscalationSweep (now : ℚ) (slaMap : String → Option SLAConfigRow)
    (reports : List SweepReport) : List SweepReport × List Escalation :=
  (reports.map (fun r => (sweepOne now slaMap r).1),
   reports.filterMap (fun r => (sweepOne now slaMap r).2))

/-! ## Rate limiter (`check_and_update_rate_limit`) -/

/-- One row of `user_rate_limits` (the fields the function reads or
writes). Time is an absolute hour index; `daily_reset_at` stores a day
index (= hour index / 24) and `hourly_reset_at` an hour index. -/
structure RateRecord where
  reports_today : ℤ
  reports_this_hour : ℤ
  daily_reset_at : ℕ
  hourly_reset_at : ℕ
  is_trusted : Bool
  is_blocked : Bool
  blocked_until : Option ℕ
  deriving Repr, DecidableEq

/-- The `jsonb` result of `check_and_update_rate_limit`. -/
structure RateResult where
  allowed : Bool
  reason : Option String
  remaining_hourly : Option ℤ
  remaining_daily : Option ℤ
  deriving Repr, DecidableEq

/-- The day index of an absolute hour index (`CURRENT_DATE`). -/
def dayOf (hour : ℕ) : ℕ := hour / 24

/-- The SQL function `check_and_update_rate_limit(p_user_id)` for one submitter.
`nowHour` is `date_trunc('hour', now())` as an absolute hour index;
`st` is the submitter's `user_rate_limits` row (`none` before the first
call). Returns the result and the row as persisted after the call. -/
def check_and_update_rate_limit (nowHour : ℕ) (st : Option RateRecord) :
    RateResult × RateRecord :=
  match st with
  | none =>
      -- first-ever call: insert a default row, allow without incrementing
      (⟨true, none, some 3, some 10⟩,
       ⟨0, 0, dayOf nowHour, nowHour, false, false, none⟩)
  | some v =>
      if v.is_blocked ∧ (v.blocked_until = none ∨ ∃ b, v.blocked_until = some b ∧ b > nowHour) then
        (⟨false, some "User is blocked", none, none⟩, v)
      else
        let v := if v.daily_reset_at < dayOf nowHour then
            { v with reports_today := 0, daily_reset_at := dayOf nowHour } else v
        let v := if v.hourly_reset_at < nowHour then
            { v with reports_this_hour := 0, hourly_reset_at := nowHour } else v
        let maxHourly : ℤ := if v.is_trusted then 10 else 3
        let maxDaily : ℤ := if v.is_trusted then 50 else 10
        if v.reports_this_hour ≥ maxHourly then
          (⟨false, some "Hourly limit reached", none, none⟩, v)
        else if v.reports_today ≥ maxDaily then
          (⟨false, some "Daily limit reached", none, none⟩, v)
        else
          (⟨true, none, some (maxHourly - v.reports_this_hour - 1),
            some (maxDaily - v.reports_today - 1)⟩,
           { v with reports_today := v.reports_today + 1,
                    reports_this_hour := v.reports_this_hour + 1 })

/-- The sequence of results of `n` successive calls at hour `nowHour`,
starting from state `st`, together with the final state. -/
def rateLimitTrace (nowHour : ℕ) : ℕ → Option RateRecord → List RateResult × Option RateRecord
  | 0, st => ([], st)
  | n + 1, st =>
      let step := check_and_update_rate_limit nowHour st
      let rest := rateLimitTrace nowHour n (some step.2)
      (step.1 :: rest.1, rest.2)

/-! ## Duplicate detector (`check_duplicate_report`) -/

/-- A `civic_reports` row as seen by the duplicate detector and the
submission flow. -/
structure DupReport where
  id : ℕ
  user_id : ℕ
  title : String
  issue_type : String
  status : String
  created_at : ℚ
  latitude : Option ℚ
  longitude : Option ℚ
  is_duplicate : Bool
  duplicate_of : Option ℕ
  deriving Repr, DecidableEq

/-- A row returned by `check_duplicate_report`: the matched report plus
its rounded distance in meters and rounded age in hours. -/
structure DupHit where
  report : DupReport
  distance_meters : ℤ
  hours_ago : ℤ
  deriving Repr, DecidableEq

/-- The `WHERE` clause of `check_duplicate_report`. `dist plat plng lat lng`
abstracts the great-circle distance in meters,
`6371000 * acos(cos(radians plat) * cos(radians lat) *
cos(radians lng - radians plng) + sin(radians plat) * sin(radians lat))`,
evaluated exactly (the filter compares the unrounded distance to the radius). -/
def dupQualifies (dist : ℚ → ℚ → ℚ → ℚ → ℚ) (now p_lat p_lng : ℚ)
    (p_issue_type : String) (p_radius_meters p_time_window_hours : ℤ)
    (cr : DupReport) : Bool :=
  cr.issue_type = p_issue_type ∧
  cr.status ≠ "resolved" ∧ cr.status ≠ "rejected" ∧
  cr.created_at > now - (p_time_window_hours : ℚ) ∧
  cr.latitude ≠ none ∧ cr.longitude ≠ none ∧
  dist p_lat p_lng ((cr.latitude).getD 0) ((cr.longitude).getD 0) ≤ (p_radius_meters : ℚ)

/-- The `ORDER BY dist_meters LIMIT 1` selection: first row of the scan whose rounded
distance (`dist_meters` names the `ROUND(...)` output column) is strictly
minimal; among equal rounded distances the scan order decides, as the
query has no further sort key. -/
def minByRoundedDist : List (DupReport × ℤ) → Option (DupReport × ℤ)
  | [] => none
  | x :: xs =>
      match minByRoundedDist xs with
      | none => some x
      | some y => if y.2 < x.2 then some y else some x

/-- The SQL function `check_duplicate_report(p_lat, p_lng, p_issue_type, p_user_id,
p_radius_meters, p_time_window_hours)` over table state `db`.
Note the body never mentions `p_user_id`. -/
def check_duplicate_report (dist : ℚ → ℚ → ℚ → ℚ → ℚ) (db : List DupReport)
    (now p_lat p_lng : ℚ) (p_issue_type : String) (p_user_id : ℕ)
    (p_radius_meters p_time_window_hours : ℤ) : Option DupHit :=
  let candidates :=
    (db.filter (dupQualifies dist now p_lat p_lng p_issue_type
      p_radius_meters p_time_window_hours)).map
      (fun cr => (cr, round (dist p_lat p_lng ((cr.latitude).getD 0) ((cr.longitude).getD 0))))
  (minByRoundedDist candidates).map
    (fun x => ⟨x.1, x.2, round (now - x.1.created_at)⟩)

/-- The report-insert path of `ReportForm.handleSubmit`, restricted to the
duplicate fields: the inserted row carries `is_duplicate :=
duplicateWarning.show` and `duplicate_of := existingId` when a duplicate
warning is showing, where the warning is the result of
`check_duplicate_report` at the form's location and issue type. -/
def submitReport (dist : ℚ → ℚ → ℚ → ℚ → ℚ) (db : List DupReport)
    (now : ℚ) (newId uid : ℕ) (title : String) (lat lng : ℚ)
    (issueType : String) : DupReport :=
  let warning := check_duplicate_report dist db now lat lng issueType uid 100 72
  { id := newId, user_id := uid, title := title, issue_type := issueType,
    status := "pending", created_at := now,
    latitude := some lat, longitude := some lng,
    is_duplicate := warning.isSome,
    duplicate_of := warning.map (fun h => h.report.id) }

/-! ## Status updates and reopen (`ReportsList.tsx`) -/

/-- A report as manipulated by the `ReportsList` component. -/
structure UIReport where
  status : String
  resolved_at : Option ℚ
  escalation_level : ℤ
  deriving Repr, DecidableEq

/-- The `handleUpdateReport` update payload applied to a report: status is
set to `updateStatus`; on `resolved`, `resolved_at` is stamped; on
`reopened`, `resolved_at` is cleared and `escalation_level` incremented
by one. -/
def handleUpdateReport (now : ℚ) (updateStatus : String) (r : UIReport) : UIReport :=
  if updateStatus = "resolved" then
    { r with status := updateStatus, resolved_at := some now }
  else if updateStatus = "reopened" then
    { r with status := updateStatus, resolved_at := none,
             escalation_level := r.escalation_level + 1 }
  else
    { r with status := updateStatus }

/-- The `handleReopenReport` update applied to a report: status becomes
`reopened` and `resolved_at` is cleared; no other column is touched. -/
def handleReopenReport (r : UIReport) : UIReport :=
  { r with status := "reopened", resolved_at := none }

/-! ## Concrete distance data for the examples

`exDist` is the great-circle distance
`6371000 * acos(cos(radians plat) * cos(radians lat) *
cos(radians lng - radians plng) + sin(radians plat) * sin(radians lat))`
evaluated on the only configurations the concrete examples below use:
coincident points, where the acos argument is `cos² + sin² = 1` and the
distance is `0`, and the pair `(0,0)`/`(1,0)`, one degree of latitude
apart, which is `6371000 * (π/180) ≈ 111194` m — far beyond every radius
used below; `111000` is a safe stand-in on that side of the comparison. -/
def exDist : ℚ → ℚ → ℚ → ℚ → ℚ := fun plat plng lat lng =>
  if plat = lat ∧ plng = lng then 0 else 111000

/-- An unresolved pothole report at the origin, created at hour 1. -/
def exReportA : DupReport :=
  ⟨1, 10, "pothole near 5th", "pothole", "pending", 1, some 0, some 0, false, none⟩

/-- An unresolved pothole report at the origin, created at hour 5 (more
recent than `exReportA`). -/
def exReportB : DupReport :=
  ⟨2, 11, "pothole again", "pothole", "pending", 5, some 0, some 0, false, none⟩

/-- An unresolved pothole report at latitude 1, longitude 0 (≈111 km from
the origin). -/
def exFarReport : DupReport :=
  ⟨1, 10, "far pothole", "pothole", "pending", 1, some 1, some 0, false, none⟩

/-- An unresolved pothole report at the origin that is itself flagged as a
duplicate of report 1. -/
def exDupReport : DupReport :=
  ⟨2, 11, "duplicate pothole", "pothole", "pending", 2, some 0, some 0, true, some 1⟩

/-- An unresolved pothole report at the origin owned by user 11. -/
def exOwnReport : DupReport :=
  ⟨5, 11, "my earlier report", "pothole", "pending", 5, some 0, some 0, false, none⟩

/-! ## Theorems -/

/-- The selection `minByRoundedDist` returns `none` exactly on the empty candidate list. -/
theorem minByRoundedDist_eq_none_iff (l : List (DupReport × ℤ)) :
    minByRoundedDist l = none ↔ l = [] := by
  cases l with
  | nil => simp [minByRoundedDist]
  | cons x xs =>
      cases h : minByRoundedDist xs with
      | none => simp [minByRoundedDist, h]
      | some y =>
          constructor
          · intro hc
            simp only [minByRoundedDist, h] at hc
            split_ifs at hc <;> simp_all
          · intro hc; simp at hc

/-- A candidate returned by `minByRoundedDist` is in the list. -/
theorem minByRoundedDist_mem (l : List (DupReport × ℤ)) (y : DupReport × ℤ)
    (h : minByRoundedDist l = some y) : y ∈ l := by
  induction l with
  | nil => simp [minByRoundedDist] at h
  | cons x xs ih =>
      cases hxs : minByRoundedDist xs with
      | none =>
          simp only [minByRoundedDist, hxs, Option.some.injEq] at h
          subst h
          exact List.mem_cons_self x xs
      | some y' =>
          simp only [minByRoundedDist, hxs] at h
          split_ifs at h with hlt <;> simp only [Option.some.injEq] at h <;> subst h
          · exact List.mem_cons_of_mem x (ih hxs)
          · exact List.mem_cons_self x xs

/-- A candidate returned by `minByRoundedDist` has minimal rounded
distance in the list. -/
theorem minByRoundedDist_min (l : List (DupReport × ℤ)) :
    ∀ y, minByRoundedDist l = some y → ∀ x ∈ l, y.2 ≤ x.2 := by
  induction l with
  | nil => intro y h; simp [minByRoundedDist] at h
  | cons x xs ih =>
      intro y h
      cases hxs : minByRoundedDist xs with
      | none =>
          simp only [minByRoundedDist, hxs, Option.some.injEq] at h
          subst h
          intro z hz
          rcases List.mem_cons.mp hz with hz | hz
          · rw [hz]
          · rw [minByRoundedDist_eq_none_iff] at hxs
            rw [hxs] at hz
            simp at hz
      | some y' =>
          simp only [minByRoundedDist, hxs] at h
          split_ifs at h with hlt <;> simp only [Option.some.injEq] at h <;> subst h
          · intro z hz
            rcases List.mem_cons.mp hz with hz | hz
            · rw [hz]; exact le_of_lt hlt
            · exact ih y' hxs z hz
          · intro z hz
            rcases List.mem_cons.mp hz with hz | hz
            · rw [hz]
            · exact le_trans (not_lt.mp hlt) (ih y' hxs z hz)

/-- A `some` result of `check_duplicate_report` is a row of the table that
passes every filter of the query, and carries the rounded distance and age
the query computes for it. -/
theorem check_duplicate_report_some_spec (dist : ℚ → ℚ → ℚ → ℚ → ℚ)
    (db : List DupReport) (now p_lat p_lng : ℚ) (ty : String) (uid : ℕ)
    (radius window : ℤ) (hit : DupHit)
    (h : check_duplicate_report dist db now p_lat p_lng ty uid radius window = some hit) :
    hit.report ∈ db ∧
    dupQualifies dist now p_lat p_lng ty radius window hit.report = true ∧
    hit.distance_meters =
      round (dist p_lat p_lng ((hit.report.latitude).getD 0) ((hit.report.longitude).getD 0)) ∧
    hit.hours_ago = round (now - hit.report.created_at) := by
  unfold check_duplicate_report at h
  rw [Option.map_eq_some'] at h
  obtain ⟨x, hx, hhit⟩ := h
  have hmem := minByRoundedDist_mem _ _ hx
  rw [List.mem_map] at hmem
  obtain ⟨cr, hcr, hxeq⟩ := hmem
  have hq := List.mem_filter.mp hcr
  subst hhit
  rw [← hxeq]
  exact ⟨hq.1, hq.2, rfl, rfl⟩

/-- C1: for every issue type and every `aiConfidence` in `[0,1]` (and every
rule table whose weights lie in `[0,1]`, as the `priority_rules` check
constraint guarantees), `calculate_priority_score` returns
`score = baseWeight * timeMultiplier * (0.5 + aiConfidence * 0.5)` capped at
`1.0`, with `baseWeight` defaulting to `0.5` when no active rule exists; the
score lies in `[0,1]` and the tier is critical at `≥ 0.75`, high at `≥ 0.55`,
medium at `≥ 0.35`, else low. -/
theorem priority_score_formula_bounds_and_tier
    (rules : String → Option ℚ) (hour : ℕ) (t : String) (c : ℚ)
    (hc0 : 0 ≤ c) (hc1 : c ≤ 1)
    (hr : ∀ w, rules t = some w → 0 ≤ w ∧ w ≤ 1) :
    (calculate_priority_score rules hour t c).1 =
      min ((rules t).getD (1/2) * timeMultiplier t hour * (1/2 + c * (1/2))) 1 ∧
    0 ≤ (calculate_priority_score rules hour t c).1 ∧
    (calculate_priority_score rules hour t c).1 ≤ 1 ∧
    (calculate_priority_score rules hour t c).2 =
      (if (calculate_priority_score rules hour t c).1 ≥ 3/4 then "critical"
       else if (calculate_priority_score rules hour t c).1 ≥ 11/20 then "high"
       else if (calculate_priority_score rules hour t c).1 ≥ 7/20 then "medium"
       else "low") := by
  have hb : 0 ≤ (rules t).getD (1/2) := by
    cases h : rules t with
    | none => norm_num
    | some w => simpa using (hr w h).1
  have hm : 0 ≤ timeMultiplier t hour := by
    unfold timeMultiplier; split <;> norm_num
  have hf : 0 ≤ 1/2 + c * (1/2 : ℚ) := by linarith
  refine ⟨rfl, ?_, ?_, rfl⟩
  · exact le_min (by positivity) (by norm_num)
  · exact min_le_right _ _

/-- Witness for C1 at `issueType = "pothole"`, `hour = 12`,
`aiConfidence = 1/2`, with the migration's default rule table. -/
theorem priority_score_formula_bounds_and_tier_witness :
    0 ≤ (calculate_priority_score defaultPriorityRules 12 "pothole" (1/2)).1 ∧
    (calculate_priority_score defaultPriorityRules 12 "pothole" (1/2)).1 ≤ 1 := by
  have h := priority_score_formula_bounds_and_tier defaultPriorityRules 12 "pothole" (1/2)
    (by norm_num) (by norm_num)
    (fun w hw => by
      simp [defaultPriorityRules] at hw
      subst hw
      norm_num)
  exact ⟨h.2.1, h.2.2.1⟩

/-- C8 counterexample: at wall-clock hour 18 — which lies outside `[6,18)` —
the streetlight time-of-day multiplier is `1.0`, not the claimed `1.3`,
because the SQL `BETWEEN 6 AND 18` is inclusive of 18. -/
theorem streetlight_multiplier_hour18_counterexample :
    ¬ (6 ≤ 18 ∧ 18 < 18) ∧ timeMultiplier "streetlight" 18 = 1 ∧
      (1 : ℚ) ≠ 13/10 := by
  refine ⟨by decide, by norm_num [timeMultiplier], by norm_num⟩

/-- C8 amended: the multiplier is `1.3` exactly when the issue type is
`streetlight` and the hour lies outside the inclusive band `[6,18]` (hours
0–5 and 19–23 count as night); scoring a streetlight report with
`aiConfidence = 1` at hour 2 strictly exceeds the same at hour 14. -/
theorem streetlight_night_multiplier (t : String) (hour : ℕ) :
    (timeMultiplier t hour = 13/10 ↔ (t = "streetlight" ∧ (hour < 6 ∨ 18 < hour))) ∧
    (calculate_priority_score defaultPriorityRules 2 "streetlight" 1).1 >
      (calculate_priority_score defaultPriorityRules 14 "streetlight" 1).1 := by
  constructor
  · unfold timeMultiplier
    split
    · rename_i h
      constructor
      · intro _
        exact ⟨h.1, by have := h.2; omega⟩
      · intro _; rfl
    · rename_i h
      constructor
      · intro h1; norm_num at h1
      · intro h2
        exact absurd ⟨h2.1, by have := h2.2; omega⟩ h
  · have h : "streetlight" ≠ "pothole" := by decide
    norm_num [calculate_priority_score, timeMultiplier, defaultPriorityRules, h, min_def]

/-- C2: for every priority tier and creation timestamp, the insert trigger
sets `sla_due_at` to `created_at + resolution_time_hours` of the tier's
`sla_config` row when one exists, and leaves `sla_due_at` null when none
exists; in both cases the trigger returns a row, so the insert succeeds. -/
theorem sla_due_date_spec (rules : String → Option ℚ)
    (slaConfig : String → Option SLAConfigRow) (hour : ℕ) (new : NewReport)
    (hscore : new.priority_score ≠ none) (h0 : new.sla_due_at = none) :
    (∀ cfg, slaConfig new.priority = some cfg →
      (set_sla_due_date rules slaConfig hour new).sla_due_at =
        some (new.created_at + (cfg.resolution_time_hours : ℚ))) ∧
    (slaConfig new.priority = none →
      (set_sla_due_date rules slaConfig hour new).sla_due_at = none) := by
  obtain ⟨ps, hps⟩ := Option.ne_none_iff_exists'.mp hscore
  constructor
  · intro cfg hcfg
    simp [set_sla_due_date, hps, hcfg]
  · intro hnone
    simp [set_sla_due_date, hps, hnone, h0]

/-- Witness for C2: a high-priority report created at time 0 with the
default SLA table gets `sla_due_at = 72`; a report with an unconfigured
priority keeps `sla_due_at = null`. -/
theorem sla_due_date_spec_witness :
    (set_sla_due_date defaultPriorityRules defaultSlaConfig 12
      ⟨"pothole", 1/2, "high", some (6/10), 0, none⟩).sla_due_at = some 72 ∧
    (set_sla_due_date defaultPriorityRules defaultSlaConfig 12
      ⟨"pothole", 1/2, "urgent", some (6/10), 0, none⟩).sla_due_at = none := by
  constructor
  · have h := (sla_due_date_spec defaultPriorityRules defaultSlaConfig 12
      ⟨"pothole", 1/2, "high", some (6/10), 0, none⟩ (by simp) rfl).1
      ⟨8, 72, 24, 48⟩ (by decide)
    rw [h]; norm_num
  · exact (sla_due_date_spec defaultPriorityRules defaultSlaConfig 12
      ⟨"pothole", 1/2, "urgent", some (6/10), 0, none⟩ (by simp) rfl).2 (by decide)

/-- The sweep's level computation never lowers a report's level. -/
theorem desiredLevel_ge (h : ℚ) (cfg : SLAConfigRow) (l : ℤ) :
    l ≤ desiredLevel h cfg l := by
  unfold desiredLevel
  split_ifs with h1 h2
  · have := h1.2; omega
  · have := h2.2; omega
  · exact le_refl l

/-- A sweep step on a selected report bumps the level to the desired one
when configured, and skips the report when its priority is unconfigured. -/
theorem sweepOne_spec (now : ℚ) (slaMap : String → Option SLAConfigRow)
    (r : SweepReport) (hact : sweepSelects r = true) :
    (∀ cfg, slaMap r.priority = some cfg →
      (sweepOne now slaMap r).1 =
        { r with escalation_level :=
            if now - r.created_at > (cfg.escalation_level_2_hours : ℚ) ∧
                r.escalation_level < 2 then 2
            else if now - r.created_at > (cfg.escalation_level_1_hours : ℚ) ∧
                r.escalation_level < 1 then 1
            else r.escalation_level }) ∧
    (slaMap r.priority = none → sweepOne now slaMap r = (r, none)) := by
  constructor
  · intro cfg hcfg
    show (sweepOne now slaMap r).1 =
      { r with escalation_level := desiredLevel (now - r.created_at) cfg r.escalation_level }
    unfold sweepOne
    rw [if_pos hact, hcfg]
    dsimp only
    by_cases hgt : desiredLevel (now - r.created_at) cfg r.escalation_level > r.escalation_level
    · rw [if_pos hgt]
    · rw [if_neg hgt]
      have hge := desiredLevel_ge (now - r.created_at) cfg r.escalation_level
      have heq : desiredLevel (now - r.created_at) cfg r.escalation_level =
          r.escalation_level := le_antisymm (not_lt.mp hgt) hge
      rw [heq]
  · intro hnone
    unfold sweepOne
    rw [if_pos hact, hnone]

/-- C3: one escalation-sweep step on an active report (status in
{pending, in_progress, reopened}, `sla_due_at` non-null): when the
priority has an `sla_config` row, the report's level becomes 2 if the
elapsed hours exceed the level-2 threshold and the level is below 2,
else 1 if they exceed the level-1 threshold and the level is below 1,
else it is unchanged; when the priority has no row, the report is
skipped unchanged. -/
theorem escalation_sweep_step (now : ℚ) (slaMap : String → Option SLAConfigRow)
    (r : SweepReport) (hact : sweepSelects r = true) :
    (∀ cfg, slaMap r.priority = some cfg →
      (sweepOne now slaMap r).1 =
        { r with escalation_level :=
            if now - r.created_at > (cfg.escalation_level_2_hours : ℚ) ∧
                r.escalation_level < 2 then 2
            else if now - r.created_at > (cfg.escalation_level_1_hours : ℚ) ∧
                r.escalation_level < 1 then 1
            else r.escalation_level }) ∧
    (slaMap r.priority = none → sweepOne now slaMap r = (r, none)) :=
  sweepOne_spec now slaMap r hact

/-- Witness for C3, the spec's scenario: a high-priority report created at
time 0 (thresholds 24h/48h), swept at hour 30 from level 0, is escalated
to level 1. -/
theorem escalation_sweep_step_witness :
    ((sweepOne 30 defaultSlaConfig ⟨1, "high", 0, 0, some 72, "pending"⟩).1).escalation_level = 1 := by
  have h := (escalation_sweep_step 30 defaultSlaConfig
    ⟨1, "high", 0, 0, some 72, "pending"⟩ (by decide)).1 ⟨8, 72, 24, 48⟩ (by decide)
  rw [h]
  norm_num

/-- At a fixed time, applying the sweep's level computation to its own
output changes nothing. -/
theorem desiredLevel_idem (h : ℚ) (cfg : SLAConfigRow) (l : ℤ) :
    desiredLevel h cfg (desiredLevel h cfg l) = desiredLevel h cfg l := by
  unfold desiredLevel
  by_cases c2 : h > (cfg.escalation_level_2_hours : ℚ) <;>
    by_cases c1 : h > (cfg.escalation_level_1_hours : ℚ) <;>
    by_cases l2 : l < 2 <;>
    by_cases l1 : l < 1 <;>
    simp [c2, c1, l2, l1] <;>
    omega

/-- A sweep step on a report whose level is already the desired one is a
no-op and logs no escalation. -/
theorem sweepOne_fixed (now : ℚ) (slaMap : String → Option SLAConfigRow)
    (cfg : SLAConfigRow) (r : SweepReport)
    (hcfg : slaMap r.priority = some cfg)
    (hfix : desiredLevel (now - r.created_at) cfg r.escalation_level = r.escalation_level) :
    sweepOne now slaMap r = (r, none) := by
  unfold sweepOne
  by_cases hact : sweepSelects r = true
  · rw [if_pos hact]
    simp only [hcfg]
    rw [hfix, if_neg (lt_irrefl _)]
  · rw [if_neg hact]

/-- Re-running a single sweep step on its own output is a no-op and logs
no escalation. -/
theorem sweepOne_idem (now : ℚ) (slaMap : String → Option SLAConfigRow)
    (r : SweepReport) :
    sweepOne now slaMap (sweepOne now slaMap r).1 = ((sweepOne now slaMap r).1, none) := by
  by_cases hact : sweepSelects r = true
  · cases hcfg : slaMap r.priority with
    | none => simp [sweepOne, hact, hcfg]
    | some cfg =>
        have hstep : (sweepOne now slaMap r).1 =
            { r with escalation_level := desiredLevel (now - r.created_at) cfg r.escalation_level } :=
          (sweepOne_spec now slaMap r hact).1 cfg hcfg
        have hcfg' : slaMap ((sweepOne now slaMap r).1).priority = some cfg := by
          rw [hstep]; exact hcfg
        have hfix' : desiredLevel (now - ((sweepOne now slaMap r).1).created_at) cfg
            ((sweepOne now slaMap r).1).escalation_level =
            ((sweepOne now slaMap r).1).escalation_level := by
          rw [hstep]
          exact desiredLevel_idem (now - r.created_at) cfg r.escalation_level
        exact sweepOne_fixed now slaMap cfg _ hcfg' hfix'
  · simp [sweepOne, hact]

/-- C4: the escalation sweep is idempotent — running it twice in
succession at the same time on the same report set leaves the reports as
after the first run and appends no further escalation log entries. -/
theorem runEscalationSweep_idempotent (now : ℚ)
    (slaMap : String → Option SLAConfigRow) (reports : List SweepReport) :
    runEscalationSweep now slaMap (runEscalationSweep now slaMap reports).1 =
      ((runEscalationSweep now slaMap reports).1, []) := by
  unfold runEscalationSweep
  dsimp only
  simp only [Prod.mk.injEq]
  constructor
  · rw [List.map_map]
    apply List.map_congr_left
    intro r _
    show (sweepOne now slaMap (sweepOne now slaMap r).1).1 = (sweepOne now slaMap r).1
    rw [sweepOne_idem]
  · rw [List.filterMap_map]
    apply List.filterMap_eq_nil.mpr
    intro r _
    show (sweepOne now slaMap (sweepOne now slaMap r).1).2 = none
    rw [sweepOne_idem]

/-- C5 counterexample: for an untrusted submitter with no prior record,
the first four calls within the same hour are all allowed — the claimed
denial of the 4th call does not happen, because the first-ever call
creates the record without incrementing its counters. -/
theorem rate_limit_fourth_call_allowed_counterexample :
    (rateLimitTrace 0 4 none).1.map (fun x => x.allowed) = [true, true, true, true] := by
  decide

/-- C5 amended: from no record, the first four calls in one hour are
allowed (the first call creates the record without consuming); the 5th
call in that hour is denied with reason "Hourly limit reached"; the next
call after the hour boundary is allowed and leaves the hourly counter at 1. -/
theorem rate_limit_hourly_cutoff (h : ℕ) :
    (check_and_update_rate_limit h none).1.allowed = true ∧
    (check_and_update_rate_limit h (some (check_and_update_rate_limit h none).2)).1.allowed = true ∧
    (rateLimitTrace h 3 none).1.map (fun x => x.allowed) = [true, true, true] ∧
    (rateLimitTrace h 4 none).1.map (fun x => x.allowed) = [true, true, true, true] ∧
    ((rateLimitTrace h 5 none).1.map (fun x => x.allowed)).getLast? = some false ∧
    (rateLimitTrace h 5 none).1.getLast? =
      some ⟨false, some "Hourly limit reached", none, none⟩ ∧
    ((rateLimitTrace h 5 none).2.map
      (fun s => check_and_update_rate_limit (h + 1) (some s))).map
        (fun c => (c.1.allowed, c.2.reports_this_hour)) = some (true, 1) := by
  have e1 : check_and_update_rate_limit h none =
      (⟨true, none, some 3, some 10⟩, ⟨0, 0, dayOf h, h, false, false, none⟩) := rfl
  have e2 : check_and_update_rate_limit h (some ⟨0, 0, dayOf h, h, false, false, none⟩) =
      (⟨true, none, some 2, some 9⟩, ⟨1, 1, dayOf h, h, false, false, none⟩) := by
    norm_num [check_and_update_rate_limit]
  have e3 : check_and_update_rate_limit h (some ⟨1, 1, dayOf h, h, false, false, none⟩) =
      (⟨true, none, some 1, some 8⟩, ⟨2, 2, dayOf h, h, false, false, none⟩) := by
    norm_num [check_and_update_rate_limit]
  have e4 : check_and_update_rate_limit h (some ⟨2, 2, dayOf h, h, false, false, none⟩) =
      (⟨true, none, some 0, some 7⟩, ⟨3, 3, dayOf h, h, false, false, none⟩) := by
    norm_num [check_and_update_rate_limit]
  have e5 : check_and_update_rate_limit h (some ⟨3, 3, dayOf h, h, false, false, none⟩) =
      (⟨false, some "Hourly limit reached", none, none⟩,
       ⟨3, 3, dayOf h, h, false, false, none⟩) := by
    norm_num [check_and_update_rate_limit]
  have e6 : ((check_and_update_rate_limit (h + 1)
      (some ⟨3, 3, dayOf h, h, false, false, none⟩)).1.allowed,
      (check_and_update_rate_limit (h + 1)
      (some ⟨3, 3, dayOf h, h, false, false, none⟩)).2.reports_this_hour) = (true, 1) := by
    by_cases hd : dayOf h < dayOf (h + 1) <;>
      norm_num [check_and_update_rate_limit, hd, Nat.lt_succ_self]
  refine ⟨by rw [e1], by rw [e1]; dsimp only; rw [e2], ?_, ?_, ?_, ?_, ?_⟩ <;>
    simp only [rateLimitTrace, e1, e2, e3, e4, e5, List.map_cons, List.map_nil,
      Option.map_some, Option.map_none, List.getLast?_cons, List.getLast?_nil,
      List.getLast?_singleton] <;>
    simp [e6]

/-- C6 counterexample: two qualifying same-type reports at the very point
queried (hence at identical distance for any distance function), the
second created later (hour 5 vs hour 1); the query returns report 1, the
older one — there is no most-recent tie-break. -/
theorem dup_tie_ignores_recency_counterexample :
    dupQualifies exDist 10 0 0 "pothole" 100 72 exReportA = true ∧
    dupQualifies exDist 10 0 0 "pothole" 100 72 exReportB = true ∧
    exDist 0 0 ((exReportA.latitude).getD 0) ((exReportA.longitude).getD 0) =
      exDist 0 0 ((exReportB.latitude).getD 0) ((exReportB.longitude).getD 0) ∧
    exReportB.created_at > exReportA.created_at ∧
    (check_duplicate_report exDist [exReportA, exReportB] 10 0 0 "pothole" 99 100 72).map
      (fun hit => hit.report.id) = some 1 ∧
    exReportA.id = 1 ∧ exReportB.id = 2 := by
  have hA : dupQualifies exDist 10 0 0 "pothole" 100 72 exReportA = true := by
    simp only [dupQualifies, exReportA, exDist, decide_eq_true_eq, Option.getD_some]
    refine ⟨by trivial, by decide, by decide, by norm_num, by decide, by decide, by norm_num⟩
  have hB : dupQualifies exDist 10 0 0 "pothole" 100 72 exReportB = true := by
    simp only [dupQualifies, exReportB, exDist, decide_eq_true_eq, Option.getD_some]
    refine ⟨by trivial, by decide, by decide, by norm_num, by decide, by decide, by norm_num⟩
  refine ⟨hA, hB, by norm_num [exDist, exReportA, exReportB],
    by norm_num [exReportA, exReportB], ?_, rfl, rfl⟩
  unfold check_duplicate_report
  rw [List.filter_cons, if_pos hA, List.filter_cons, if_pos hB, List.filter_nil]
  have hdA : round (exDist 0 0 ((exReportA.latitude).getD 0) ((exReportA.longitude).getD 0)) = 0 := by
    norm_num [exDist, exReportA]
  have hdB : round (exDist 0 0 ((exReportB.latitude).getD 0) ((exReportB.longitude).getD 0)) = 0 := by
    norm_num [exDist, exReportB]
  simp only [List.map_cons, List.map_nil, hdA, hdB, minByRoundedDist]
  norm_num [exReportA]

/-- C6 amended: the duplicate query keeps exactly the reports of the same
issue type, status not resolved/rejected, created within the window, with
both coordinates present and within the radius by exact distance; it
returns `none` when no report qualifies, and otherwise one qualifying
report whose distance rounded to the nearest meter is minimal (the query
orders by the rounded distance only — equal rounded distances are not
further ordered by recency). -/
theorem check_duplicate_report_spec (dist : ℚ → ℚ → ℚ → ℚ → ℚ)
    (db : List DupReport) (now p_lat p_lng : ℚ) (ty : String) (uid : ℕ)
    (radius window : ℤ) :
    (check_duplicate_report dist db now p_lat p_lng ty uid radius window = none ↔
      ∀ r ∈ db, dupQualifies dist now p_lat p_lng ty radius window r = false) ∧
    (∀ hit, check_duplicate_report dist db now p_lat p_lng ty uid radius window = some hit →
      hit.report ∈ db ∧
      dupQualifies dist now p_lat p_lng ty radius window hit.report = true ∧
      hit.distance_meters =
        round (dist p_lat p_lng ((hit.report.latitude).getD 0) ((hit.report.longitude).getD 0)) ∧
      hit.hours_ago = round (now - hit.report.created_at) ∧
      ∀ r ∈ db, dupQualifies dist now p_lat p_lng ty radius window r = true →
        hit.distance_meters ≤
          round (dist p_lat p_lng ((r.latitude).getD 0) ((r.longitude).getD 0))) := by
  constructor
  · unfold check_duplicate_report
    rw [Option.map_eq_none', minByRoundedDist_eq_none_iff, List.map_eq_nil,
      List.filter_eq_nil]
    simp only [Bool.not_eq_true]
  · intro hit h
    have hs := check_duplicate_report_some_spec dist db now p_lat p_lng ty uid
      radius window hit h
    refine ⟨hs.1, hs.2.1, hs.2.2.1, hs.2.2.2, ?_⟩
    intro r hr hq
    unfold check_duplicate_report at h
    rw [Option.map_eq_some'] at h
    obtain ⟨x, hx, hhit⟩ := h
    have hrmem : (r, round (dist p_lat p_lng ((r.latitude).getD 0) ((r.longitude).getD 0))) ∈
        (db.filter (dupQualifies dist now p_lat p_lng ty radius window)).map
          (fun cr => (cr, round (dist p_lat p_lng ((cr.latitude).getD 0) ((cr.longitude).getD 0)))) :=
      List.mem_map_of_mem _ (List.mem_filter.mpr ⟨hr, hq⟩)
    have hle := minByRoundedDist_min _ x hx _ hrmem
    subst hhit
    exact hle

/-- Witness for C6 at a one-row table: the returned hit is that row, it
qualifies, and its rounded distance and age are 0 m and 9 h. -/
theorem check_duplicate_report_spec_witness :
    exReportA ∈ [exReportA] ∧
    dupQualifies exDist 10 0 0 "pothole" 100 72 exReportA = true ∧
    (⟨exReportA, 0, 9⟩ : DupHit).distance_meters = 0 := by
  have hA : dupQualifies exDist 10 0 0 "pothole" 100 72 exReportA = true := by
    simp only [dupQualifies, exReportA, exDist, decide_eq_true_eq, Option.getD_some]
    refine ⟨by trivial, by decide, by decide, by norm_num, by decide, by decide, by norm_num⟩
  have hres : check_duplicate_report exDist [exReportA] 10 0 0 "pothole" 99 100 72 =
      some ⟨exReportA, 0, 9⟩ := by
    have h0 : round (exDist 0 0 ((exReportA.latitude).getD 0) ((exReportA.longitude).getD 0)) = 0 := by
      norm_num [exDist, exReportA]
    have h9 : round ((10 : ℚ) - exReportA.created_at) = 9 := by
      norm_num [exReportA, round_eq]
    unfold check_duplicate_report
    rw [List.filter_cons, if_pos hA, List.filter_nil]
    simp only [List.map_cons, List.map_nil, h0, minByRoundedDist, Option.map_some']
    rw [h9]
  have h := (check_duplicate_report_spec exDist [exReportA] 10 0 0 "pothole" 99 100 72).2
    ⟨exReportA, 0, 9⟩ hres
  exact ⟨h.1, h.2.1, rfl⟩

/-- C10: `check_duplicate_report` never reads `p_user_id` — for any fixed
table state and query, two calls differing only in the user id return
identical results; in particular a submitter's own earlier report is
returned as the match. -/
theorem check_duplicate_report_user_blind (dist : ℚ → ℚ → ℚ → ℚ → ℚ)
    (db : List DupReport) (now p_lat p_lng : ℚ) (ty : String)
    (uid uid' : ℕ) (radius window : ℤ) :
    check_duplicate_report dist db now p_lat p_lng ty uid radius window =
      check_duplicate_report dist db now p_lat p_lng ty uid' radius window ∧
    (check_duplicate_report exDist [exOwnReport] 10 0 0 "pothole" 11 100 72).map
      (fun hit => (hit.report.user_id, hit.report.id)) = some (11, 5) ∧
    exOwnReport.user_id = 11 := by
  refine ⟨rfl, ?_, rfl⟩
  have hOwn : dupQualifies exDist 10 0 0 "pothole" 100 72 exOwnReport = true := by
    simp only [dupQualifies, exOwnReport, exDist, decide_eq_true_eq, Option.getD_some]
    refine ⟨by trivial, by decide, by decide, by norm_num, by decide, by decide, by norm_num⟩
  unfold check_duplicate_report
  rw [List.filter_cons, if_pos hOwn, List.filter_nil]
  simp [minByRoundedDist, exOwnReport]

/-- C9 counterexample: the duplicate scan does not exclude reports that
are themselves flagged duplicates — with the far original out of radius
and an active flagged duplicate at the queried point, the submitted
report carries `duplicate_of = 2`, yet report 2 has `is_duplicate = true`. -/
theorem duplicate_of_references_duplicate_counterexample :
    (submitReport exDist [exFarReport, exDupReport] 10 3 12 "new pothole" 0 0 "pothole").is_duplicate = true /\
    (submitReport exDist [exFarReport, exDupReport] 10 3 12 "new pothole" 0 0 "pothole").duplicate_of = some 2 /\
    exDupReport.id = 2 /\ exDupReport.is_duplicate = true := by
  have hFar : dupQualifies exDist 10 0 0 "pothole" 100 72 exFarReport = false := by
    simp only [dupQualifies, exFarReport, exDist, Option.getD_some]
    apply decide_eq_false
    intro hcon
    obtain ⟨-, -, -, -, -, -, hle⟩ := hcon
    norm_num at hle
  have hDup : dupQualifies exDist 10 0 0 "pothole" 100 72 exDupReport = true := by
    simp only [dupQualifies, exDupReport, exDist, decide_eq_true_eq, Option.getD_some]
    refine ⟨by trivial, by decide, by decide, by norm_num, by decide, by decide, by norm_num⟩
  refine ⟨?_, ?_, rfl, rfl⟩ <;>
    · simp only [submitReport]
      unfold check_duplicate_report
      rw [List.filter_cons, hFar, List.filter_cons, if_pos hDup, List.filter_nil]
      simp [minByRoundedDist, exDupReport]

/-- C9 amended: a submitted report has `is_duplicate = true` exactly when
`duplicate_of` is non-null, and a non-null `duplicate_of` references a
report of the scanned table that passes the duplicate query's filters
(same issue type, unresolved, recent, located) — but that report may
itself be flagged as a duplicate, since the scan never filters on
`is_duplicate`. -/
theorem submitReport_duplicate_invariant (dist : ℚ → ℚ → ℚ → ℚ → ℚ)
    (db : List DupReport) (now : ℚ) (newId uid : ℕ) (title : String)
    (lat lng : ℚ) (ty : String) :
    ((submitReport dist db now newId uid title lat lng ty).is_duplicate = true ↔
      (submitReport dist db now newId uid title lat lng ty).duplicate_of ≠ none) /\
    (∀ rid, (submitReport dist db now newId uid title lat lng ty).duplicate_of = some rid →
      ∃ r, r ∈ db /\ r.id = rid /\ dupQualifies dist now lat lng ty 100 72 r = true) := by
  constructor
  · simp only [submitReport]
    cases hw : check_duplicate_report dist db now lat lng ty uid 100 72 <;> simp [hw]
  · intro rid hr
    simp only [submitReport] at hr
    cases hw : check_duplicate_report dist db now lat lng ty uid 100 72 with
    | none => rw [hw] at hr; simp at hr
    | some hit =>
        rw [hw] at hr
        simp only [Option.map_some', Option.some.injEq] at hr
        have hs := check_duplicate_report_some_spec dist db now lat lng ty uid 100 72 hit hw
        exact ⟨hit.report, hs.1, by rw [hr], hs.2.1⟩

/-- Witness for C9: submitting next to the single unresolved pothole of
the table yields `duplicate_of = 1`, and the theorem produces the
referenced qualifying row. -/
theorem submitReport_duplicate_invariant_witness :
    ∃ r, r ∈ [exReportA] /\ r.id = 1 /\
      dupQualifies exDist 10 0 0 "pothole" 100 72 r = true := by
  have hA : dupQualifies exDist 10 0 0 "pothole" 100 72 exReportA = true := by
    simp only [dupQualifies, exReportA, exDist, decide_eq_true_eq, Option.getD_some]
    refine ⟨by trivial, by decide, by decide, by norm_num, by decide, by decide, by norm_num⟩
  have hdup : (submitReport exDist [exReportA] 10 7 12 "t" 0 0 "pothole").duplicate_of = some 1 := by
    simp only [submitReport]
    unfold check_duplicate_report
    rw [List.filter_cons, if_pos hA, List.filter_nil]
    simp [minByRoundedDist, exReportA]
  exact (submitReport_duplicate_invariant exDist [exReportA] 10 7 12 "t" 0 0 "pothole").2 1 hdup

/-- C7 counterexample: a submitter-initiated reopen of a resolved report
(`handleReopenReport`) sets the status and clears `resolved_at` but leaves
`escalation_level` at 0 — it does not increment it. -/
theorem reopen_by_submitter_keeps_level_counterexample :
    (handleReopenReport ⟨"resolved", some 5, 0⟩).status = "reopened" /\
    (handleReopenReport ⟨"resolved", some 5, 0⟩).resolved_at = none /\
    (handleReopenReport ⟨"resolved", some 5, 0⟩).escalation_level = 0 /\
    (0 : ℤ) ≠ 0 + 1 := by
  refine ⟨rfl, rfl, rfl, by norm_num⟩

/-- C7 amended: on a resolved report, the staff reopen path (a status
update to "reopened") clears `resolved_at` and increments
`escalation_level` by exactly one, while the submitter reopen path sets
status "reopened" and clears `resolved_at` without touching
`escalation_level`. -/
theorem reopen_paths (now : ℚ) (r : UIReport) (h : r.status = "resolved") :
    handleUpdateReport now "reopened" r =
      ⟨"reopened", none, r.escalation_level + 1⟩ /\
    handleReopenReport r = ⟨"reopened", none, r.escalation_level⟩ := by
  constructor
  · unfold handleUpdateReport
    rw [if_neg (by decide), if_pos rfl]
  · rfl

/-- Witness for C7 amended at a concrete resolved report. -/
theorem reopen_paths_witness :
    handleUpdateReport 7 "reopened" ⟨"resolved", some 5, 0⟩ = ⟨"reopened", none, 1⟩ /\
    handleReopenReport ⟨"resolved", some 5, 0⟩ = ⟨"reopened", none, 0⟩ := by
  have h := reopen_paths 7 ⟨"resolved", some 5, 0⟩ rfl
  refine ⟨?_, h.2⟩
  rw [h.1]
  norm_num

end CivicSense
